import Mathlib

/-!
Shallow embedding of `src/recommendation.py` (MovieLens recommendation
system): the KMeans-based cluster baseline estimator with per-fold
cross-validation, the single-query predictor, and the association-rule
rating refiner.  Dataframes are modelled as lists of row structures with
explicit optional `cluster` / `predicted_rating` columns; pandas NaN and
Python `None` are modelled as `Option.none`; Python exceptions are
modelled with `Except`; `float` arithmetic is modelled exactly over `ℚ`.
The external KMeans fitting routine (scikit-learn) is an opaque parameter
`fit`; the sklearn precondition `n_samples >= n_clusters >= 1` is part of
the embedding of `KMeans(...).fit` because violating it raises.
-/

namespace MovieRec

/-- A Python exception escaping a function of the source. -/
inductive PyError where
  | valueError
  | indexError
deriving Repr, DecidableEq

/-- One record of the ratings dataframe: identifying columns
`userId, movieId, rating, title`, the one-hot genre columns
(`genreFlags`, a named column list), and the two columns that
`train_kmeans_and_predict` may add: `cluster` and `predicted_rating`
(`none` = column value NaN / not set). -/
structure Row where
  userId : Int
  movieId : Int
  rating : ℚ
  title : String
  genreFlags : List (String × ℚ)
  cluster : Option Nat
  predicted_rating : Option ℚ
deriving Repr, DecidableEq

/-- A dataframe: its rows plus which of the two mutable columns are
present in the frame's schema (pandas column presence is per-frame). -/
structure DF where
  rows : List Row
  hasClusterCol : Bool
  hasPredictedCol : Bool
deriving Repr, DecidableEq

/-- A fitted KMeans model, abstractly: its nearest-center assignment
function (used both for `labels_` on the training data and for
`predict`, which coincide for KMeans). -/
structure KModel where
  assign : List ℚ → Nat

/-- The feature vector of a raw-catalog row (a frame that carries
neither a `cluster` nor a `predicted_rating` column, like `movie_data`
in `predict_rating_kmeans`): dropping
`userId, movieId, rating, title` leaves exactly the genre-flag values.
Fold-internal feature matrices, whose frames may carry stale columns,
are built by `dfMatrixRow` below instead. -/
def features (r : Row) : List ℚ := r.genreFlags.map (fun p => p.2)

/-- One mined association rule (the columns of the mlxtend
`association_rules` frame that the refiner reads). -/
structure Rule where
  antecedents : List String
  consequents : List String
  confidence : ℚ
deriving Repr, DecidableEq

/-- `xs.issubset(ys)` on genre-label sets. -/
def subsetOf (xs ys : List String) : Bool := xs.all (fun x => ys.contains x)

/-- Result of `filterRules`: the three return shapes of the source
function (an already-known rating, the cold-user baseline fallback, or
the filtered important-rule list).  The `baseline` payload is the
`cluster_mean_ratings` argument, returned verbatim by the source; per the
spec's contract this argument is the cluster baseline mean for the
movie's cluster. -/
inductive FilterResult where
  | rated (r : ℚ)
  | baseline (b : ℚ)
  | important (l : List (Rule × ℚ))
deriving Repr, DecidableEq

/-- Embedding of `filterRules(userId, movieId, df, cluster,
cluster_mean_ratings, rules)` (src/recommendation.py:217-263).
`rules` is the per-fold, per-cluster list of mined rule frames;
`rules[0][cluster]` raises IndexError when absent, modelled by
`Except.error`.  On the history branch the source keeps the `rating`
column in the row before collecting the labels of value-1 columns, so a
historical rating equal to 1 contributes the literal label "rating". -/
def filterRules (userId movieId : Int) (df : List Row) (cluster : Nat)
    (cluster_mean_ratings : ℚ) (rules : List (List (List Rule))) :
    Except PyError FilterResult :=
  let user_movies := df.filter (fun r => r.userId == userId)
  if (user_movies.map (fun r => r.movieId)).contains movieId then
    match user_movies.filter (fun r => r.movieId == movieId) with
    | [] => Except.error PyError.indexError
    | r :: _ => Except.ok (FilterResult.rated r.rating)
  else if user_movies.isEmpty then
    Except.ok (FilterResult.baseline cluster_mean_ratings)
  else
    let history := user_movies.map (fun r =>
      (r.rating, (if r.rating == 1 then ["rating"] else []) ++
        ((r.genreFlags.filter (fun p => p.2 == 1)).map (fun p => p.1))))
    let genreCols : List String := match df with
      | [] => []
      | r :: _ => r.genreFlags.map (fun p => p.1)
    let movieRows := df.filter (fun r => r.movieId == movieId)
    let movie_genres := genreCols.filter (fun g =>
      movieRows.all (fun r => r.genreFlags.lookup g == some 1))
    match rules.get? 0 with
    | none => Except.error PyError.indexError
    | some fold0 =>
      match fold0.get? cluster with
      | none => Except.error PyError.indexError
      | some ruleList =>
        Except.ok (FilterResult.important (ruleList.foldl (fun acc ru =>
          if subsetOf ru.consequents movie_genres then
            acc ++ history.filterMap (fun p =>
              if subsetOf ru.antecedents p.2 then some (ru, p.1) else none)
          else acc) []))

/-- Python's `round(x, 2)` over exact rationals: round to 2 decimal
places. -/
def round2 (x : ℚ) : ℚ := (round (x * 100) : ℤ) / 100

/-- Embedding of `predictRatingRules(important_rules)`
(src/recommendation.py:265-287): confidence-weighted average of the
historical ratings, `0` when the confidence sum is `0`. -/
def predictRatingRules (important_rules : List (Rule × ℚ)) : ℚ :=
  let predicted_rating := (important_rules.map (fun ru => ru.1.confidence * ru.2)).sum
  let sum_confidence := (important_rules.map (fun ru => ru.1.confidence)).sum
  if sum_confidence == 0 then 0
  else round2 (predicted_rating / sum_confidence)

/-- Python `int()`: truncation toward zero. -/
def pyInt (x : ℚ) : ℤ := if 0 ≤ x then ⌊x⌋ else ⌈x⌉

/-- Embedding of `roundRating(rating)` (src/recommendation.py:289-306):
round to the nearest half integer by cases on the fractional part. -/
def roundRating (rating : ℚ) : ℚ :=
  let decimal := rating - (pyInt rating : ℚ)
  if decimal < 1/4 then (pyInt rating : ℚ)
  else if decimal < 3/4 then (pyInt rating : ℚ) + 1/2
  else (pyInt rating : ℚ) + 1

/-- `train_data.groupby('cluster')['rating'].mean()` followed by a keyed
lookup: the mean rating of the rows assigned to cluster `c`, or `none`
when no row of `rows` is assigned to `c` (a missing key of the groupby
result: NaN under `.map`, `None` under `.get`). -/
def clusterMeanRatings (rows : List Row) (c : Nat) : Option ℚ :=
  let members := rows.filter (fun r => r.cluster == some c)
  if members.isEmpty then none
  else some ((members.map (fun r => r.rating)).sum / (members.length : ℚ))

/-- One row of `df.drop(columns=['userId', 'movieId', 'rating', 'title'])`
for a frame with the given column flags: the genre-flag values, followed
by the stale `cluster` column when present and the stale
`predicted_rating` column when present (pandas `drop` removes only the
four named columns, so columns added by a previous run stay in the
feature matrix).  A NaN cell is only read after `dfMatrixHasNaN` has
ruled it out, so the `getD` defaults are never observed. -/
def dfMatrixRow (hasCl hasPred : Bool) (r : Row) : List ℚ :=
  r.genreFlags.map (fun p => p.2) ++
    (if hasCl then [((r.cluster.getD 0 : Nat) : ℚ)] else []) ++
    (if hasPred then [r.predicted_rating.getD 0] else [])

/-- The feature matrix `df.drop(columns=['userId', 'movieId', 'rating',
'title'])` of a whole frame. -/
def dfMatrix (df : DF) : List (List ℚ) :=
  df.rows.map (dfMatrixRow df.hasClusterCol df.hasPredictedCol)

/-- Whether the frame's feature matrix contains a NaN cell (an unset
value in a present `cluster` or `predicted_rating` column); scikit-learn
raises a ValueError on NaN input to `fit` or `predict`. -/
def dfMatrixHasNaN (df : DF) : Bool :=
  (df.hasClusterCol && df.rows.any (fun r => r.cluster.isNone)) ||
  (df.hasPredictedCol && df.rows.any (fun r => r.predicted_rating.isNone))

/-- The conditions under which `KMeans(n_clusters,
random_state=42).fit(X_train)` raises a ValueError:
`n_samples < n_clusters`, an invalid `n_clusters`, or NaN in the
training matrix. -/
def fitRaises (n_clusters : Nat) (train : DF) : Bool :=
  decide (train.rows.length < n_clusters) || (n_clusters == 0) ||
    dfMatrixHasNaN train

/-- The conditions under which `kmeans.predict(X_test)` raises a
ValueError: the test matrix's columns do not match the columns the model
was fitted on, or the test matrix contains NaN.  All frames of one
dataset share the genre vocabulary (one pandas column set), so the
dropped column sets differ exactly when the `cluster` /
`predicted_rating` column flags differ. -/
def predictRaises (train test : DF) : Bool :=
  (test.hasClusterCol != train.hasClusterCol) ||
  (test.hasPredictedCol != train.hasPredictedCol) ||
  dfMatrixHasNaN test

/-- `dst['cluster'] = kmeans.predict(X_src)`: write the cluster column of
`dst` from the model's assignment of the feature vectors of `src` —
the matrix may have been taken from the frame before a column was
dropped from it, which is why source and destination can differ
(`src.rows` and `dst.rows` are the same rows modulo dropped values, in
the same order). -/
def assignClustersFrom (m : KModel) (src dst : DF) : DF :=
  { rows := List.zipWith
      (fun s d => { d with
        cluster := some (m.assign (dfMatrixRow src.hasClusterCol src.hasPredictedCol s)) })
      src.rows dst.rows,
    hasClusterCol := true,
    hasPredictedCol := dst.hasPredictedCol }

/-- `df['cluster'] = labels`: write the cluster column of a frame from
the model's assignment of its own feature matrix (KMeans `labels_` are
the model's assignment of the training matrix it was fitted on). -/
def assignClusters (m : KModel) (df : DF) : DF :=
  assignClustersFrom m df df

/-- `df.drop(columns=['predicted_rating'])`: a new frame without the
prediction column. -/
def dropPredicted (df : DF) : DF :=
  { rows := df.rows.map (fun r => { r with predicted_rating := none }),
    hasClusterCol := df.hasClusterCol,
    hasPredictedCol := false }

/-- `df['predicted_rating'] = df['cluster'].map(table)`: write the
prediction column from the baseline table; a cluster id missing from the
table yields NaN (`none`). -/
def setPredicted (table : Nat → Option ℚ) (df : DF) : DF :=
  { rows := df.rows.map (fun r => { r with predicted_rating := r.cluster.bind table }),
    hasClusterCol := df.hasClusterCol,
    hasPredictedCol := true }

/-- `mean_squared_error(df['rating'], df['predicted_rating'])` over the
rows of one test frame: sklearn raises (here `none`) on an empty input or
on a NaN prediction. -/
def mseOf (rows : List Row) : Option ℚ :=
  if rows.isEmpty then none
  else if rows.any (fun r => r.predicted_rating.isNone) then none
  else some (((rows.map (fun r =>
    (r.rating - r.predicted_rating.getD 0) ^ 2)).sum) / (rows.length : ℚ))

/-- The body of one fold of `train_kmeans_and_predict`
(src/recommendation.py:110-128), up to and including the
`predicted_rating` assignment.  `X_train` and `X_test` are built first
(lines 113-114), from the incoming frames — in particular `X_test`
retains a stale `predicted_rating` column, because the stale drop (lines
122-123) happens after line 114 and rebinds only the local name to a
copy.  Then: `kmeans.fit(X_train)` (line 118, raising per `fitRaises`),
the in-place train cluster write (line 120), the stale drop (lines
122-123), `kmeans.predict(X_test)` into the local test frame (line 125,
raising per `predictRaises` — notably on the column mismatch a stale
test column causes), and the baseline prediction write (lines 127-128).
Returns the fitted model and the augmented train and test frames. -/
def foldPredict (fit : Nat → List (List ℚ) → KModel) (n_clusters : Nat)
    (train test : DF) : Except PyError (KModel × DF × DF) :=
  if fitRaises n_clusters train then
    Except.error PyError.valueError
  else
    let m := fit n_clusters (dfMatrix train)
    let train' := assignClusters m train
    let testLocal := if test.hasPredictedCol then dropPredicted test else test
    if predictRaises train test then
      Except.error PyError.valueError
    else
      let test' := setPredicted (clusterMeanRatings train'.rows)
        (assignClustersFrom m test testLocal)
      Except.ok (m, train', test')

/-- One fold of `train_kmeans_and_predict` together with its effect on
the caller's frames (src/recommendation.py:110-134).  Python column
assignment mutates the frame in place, so the caller's train frame
becomes the clustered frame as soon as the fit succeeds — also when
`kmeans.predict` raises right after (line 125 runs after line 120); on
a fit-stage error nothing was written yet.  The caller's test frame is
mutated only on the full success path and only when it carried no
`predicted_rating` column: a raise at line 125 happens before the
right-hand side is assigned, and a stale column made `drop` rebind the
local name to a copy.  Returns
`(fold result, caller's train frame after, caller's test frame after)`;
the fold result is `(mse, model, appended train frame, local test frame)`. -/
def foldEffect (fit : Nat → List (List ℚ) → KModel) (n_clusters : Nat)
    (train test : DF) : Except PyError (ℚ × KModel × DF × DF) × DF × DF :=
  match foldPredict fit n_clusters train test with
  | Except.error e =>
    (Except.error e,
     if fitRaises n_clusters train then train
     else assignClusters (fit n_clusters (dfMatrix train)) train,
     test)
  | Except.ok (m, train', test') =>
    let callerTest := if test.hasPredictedCol then test else test'
    match mseOf test'.rows with
    | none => (Except.error PyError.valueError, train', callerTest)
    | some mseV => (Except.ok (mseV, m, train', test'), train', callerTest)

/-- Embedding of `train_kmeans_and_predict(train_df, test_df, n_clusters)`
(src/recommendation.py:91-136).  The loop `for i in range(len(train_df))`
runs the fold body on each train/test pair; an uncaught exception in any
fold aborts the whole call (no per-fold results are returned), but the
in-place mutations of the caller's frames performed before the exception
persist.  A missing test frame (`test_df` shorter than `train_df`) is an
IndexError.  Returns
`(Except result (mse_list, models, train_dfs), caller's train frames after,
caller's test frames after)`. -/
def train_kmeans_and_predict (fit : Nat → List (List ℚ) → KModel) (n_clusters : Nat) :
    List DF → List DF →
    Except PyError (List ℚ × List KModel × List DF) × List DF × List DF
  | [], ts => (Except.ok ([], [], []), [], ts)
  | t :: trs, [] => (Except.error PyError.indexError, t :: trs, [])
  | t :: trs, s :: tss =>
    match foldEffect fit n_clusters t s with
    | (Except.error e, t', s') => (Except.error e, t' :: trs, s' :: tss)
    | (Except.ok (mseV, m, tdf, _sdf), t', s') =>
      match train_kmeans_and_predict fit n_clusters trs tss with
      | (Except.error e, trs', tss') => (Except.error e, t' :: trs', s' :: tss')
      | (Except.ok (ms, mods, tds), trs', tss') =>
        (Except.ok (mseV :: ms, m :: mods, tdf :: tds), t' :: trs', s' :: tss')

/-- Embedding of `predict_rating_kmeans(user_id, movie_id, models,
train_dfs, movie_data)` (src/recommendation.py:138-164).  `Except.ok none`
is the source's `return None` (movie not found); indexing an empty
`models` / `train_dfs` list raises.  On success returns
`(predicted_rating, predicted_cluster, cluster_mean_ratings)`, where the
predicted rating is `cluster_mean_ratings.get(cluster, None)` — `none`
when the cluster has no training members. -/
def predict_rating_kmeans (user_id movie_id : Int) (models : List KModel)
    (train_dfs : List DF) (movie_data : List Row) :
    Except PyError (Option (Option ℚ × Nat × (Nat → Option ℚ))) :=
  match movie_data.filter (fun r => r.movieId == movie_id) with
  | [] => Except.ok none
  | r :: _ =>
    match models with
    | [] => Except.error PyError.indexError
    | m :: _ =>
      match train_dfs with
      | [] => Except.error PyError.indexError
      | t :: _ =>
        let predicted_cluster := m.assign (features r)
        let table := clusterMeanRatings t.rows
        Except.ok (some (table predicted_cluster, predicted_cluster, table))

/-! ## Theorems -/

/-- C10: `predict_rating_kmeans` never consults its `user_id` argument:
for a fixed movie id, model list, train sets and catalog, the result is
the same for every user id. -/
theorem c10_user_id_never_consulted :
    ∀ (u1 u2 movie_id : Int) (models : List KModel) (train_dfs : List DF)
      (movie_data : List Row),
      predict_rating_kmeans u1 movie_id models train_dfs movie_data =
      predict_rating_kmeans u2 movie_id models train_dfs movie_data :=
  fun _ _ _ _ _ _ => rfl

/-- C6: when the confidence sum is zero (in particular on the empty
list), `predictRatingRules` returns the sentinel `0`; the function takes
no baseline argument, so any fallback is necessarily the caller's. -/
theorem c6_zero_confidence_sentinel :
    (∀ l : List (Rule × ℚ),
      (l.map (fun ru => ru.1.confidence)).sum = 0 → predictRatingRules l = 0) ∧
    predictRatingRules [] = 0 := by
  constructor
  · intro l h
    simp [predictRatingRules, h]
  · rfl

/-- Witness for C6: a non-empty list whose confidences sum to zero is
mapped to the sentinel `0`. -/
theorem c6_zero_confidence_sentinel_witness :
    ([(Rule.mk [] [] 0, (5 : ℚ))].map (fun ru => ru.1.confidence)).sum = 0 ∧
    predictRatingRules [(Rule.mk [] [] 0, (5 : ℚ))] = 0 :=
  ⟨by simp, c6_zero_confidence_sentinel.1 [(Rule.mk [] [] 0, (5 : ℚ))] (by simp)⟩

/-- C5: with a positive confidence sum, `predictRatingRules` is the
confidence-weighted average of the historical ratings rounded to two
decimal places, and on the spec's concrete example
`[(confidence 0.8, rating 4.0), (confidence 0.5, rating 3.0)]` it
returns 3.62. -/
theorem c5_weighted_average :
    (∀ l : List (Rule × ℚ),
      0 < (l.map (fun ru => ru.1.confidence)).sum →
      predictRatingRules l =
        round2 ((l.map (fun ru => ru.1.confidence * ru.2)).sum /
          (l.map (fun ru => ru.1.confidence)).sum)) ∧
    predictRatingRules [(Rule.mk [] [] (4/5), 4), (Rule.mk [] [] (1/2), 3)] =
      362/100 := by
  constructor
  · intro l h
    simp [predictRatingRules, ne_of_gt h]
  · norm_num [predictRatingRules, round2, round_eq]

/-- Witness for C5: the weighted-average branch applies to the spec's
concrete example, whose confidence sum 1.3 is positive. -/
theorem c5_weighted_average_witness :
    0 < (([(Rule.mk [] [] (4/5), (4 : ℚ)), (Rule.mk [] [] (1/2), 3)]).map
      (fun ru => ru.1.confidence)).sum ∧
    predictRatingRules [(Rule.mk [] [] (4/5), 4), (Rule.mk [] [] (1/2), 3)] =
      round2 ((([(Rule.mk [] [] (4/5), (4 : ℚ)), (Rule.mk [] [] (1/2), 3)]).map
        (fun ru => ru.1.confidence * ru.2)).sum /
        (([(Rule.mk [] [] (4/5), (4 : ℚ)), (Rule.mk [] [] (1/2), 3)]).map
          (fun ru => ru.1.confidence)).sum) :=
  ⟨by norm_num,
   c5_weighted_average.1 [(Rule.mk [] [] (4/5), 4), (Rule.mk [] [] (1/2), 3)]
     (by norm_num)⟩

/-- C7 counterexample: the claim asserts `roundRating(2.4) = 2`, but the
source maps 2.4 to 2.5 — its fractional part 0.4 lies in [0.25, 0.75),
so the middle branch `int(rating) + 0.5` fires (which is also what the
claim's own general band rule demands). -/
theorem c7_counterexample_2_4 :
    roundRating (12/5) = 5/2 ∧ ¬ roundRating (12/5) = 2 := by
  constructor
  · rw [roundRating]
    norm_num [pyInt]
  · rw [roundRating]
    norm_num [pyInt]

/-- C7 (amended): for non-negative ratings, `roundRating` maps a value
with fractional part below 0.25 to its integer part, with fractional
part in [0.25, 0.75) to integer part + 0.5, and with fractional part at
least 0.75 to integer part + 1; in particular on 2.1, 2.4, 2.25, 2.7,
2.76 it returns 2, 2.5, 2.5, 2.5, 3 (the claim's value 2 at input 2.4 is
replaced by 2.5, as the band rule dictates). -/
theorem c7_round_rating_law :
    (∀ x : ℚ, 0 ≤ x →
      ((x - (⌊x⌋ : ℚ) < 1/4 → roundRating x = (⌊x⌋ : ℚ)) ∧
       (1/4 ≤ x - (⌊x⌋ : ℚ) → x - (⌊x⌋ : ℚ) < 3/4 →
         roundRating x = (⌊x⌋ : ℚ) + 1/2) ∧
       (3/4 ≤ x - (⌊x⌋ : ℚ) → roundRating x = (⌊x⌋ : ℚ) + 1))) ∧
    roundRating (21/10) = 2 ∧ roundRating (12/5) = 5/2 ∧
    roundRating (9/4) = 5/2 ∧ roundRating (27/10) = 5/2 ∧
    roundRating (69/25) = 3 := by
  refine ⟨?_, ?_, ?_, ?_, ?_, ?_⟩
  · intro x hx
    have hpy : (pyInt x : ℚ) = (⌊x⌋ : ℚ) := by rw [pyInt, if_pos hx]
    refine ⟨fun h1 => ?_, fun h2 h3 => ?_, fun h4 => ?_⟩ <;>
      simp only [roundRating, hpy]
    · rw [if_pos h1]
    · rw [if_neg (not_lt.mpr h2), if_pos h3]
    · rw [if_neg (not_lt.mpr (le_trans (by norm_num) h4)),
        if_neg (not_lt.mpr h4)]
  all_goals rw [roundRating]
  all_goals norm_num [pyInt]

/-- Witness for C7 (amended): the law applies at the concrete input
2.25, whose fractional part 0.25 falls in the middle band. -/
theorem c7_round_rating_law_witness :
    (0 : ℚ) ≤ 9/4 ∧ roundRating (9/4) = ((⌊(9/4 : ℚ)⌋ : ℚ) + 1/2) :=
  ⟨by norm_num,
   (c7_round_rating_law.1 (9/4) (by norm_num)).2.1 (by norm_num) (by norm_num)⟩

/-- C1: for a user with no rating history in `df`, `filterRules` returns
the `cluster_mean_ratings` argument — under the spec's contract, the
cluster baseline mean for the movie's cluster — as the prediction, for
every `rules` argument, so no rule is evaluated. -/
theorem c1_cold_user_fallback (u m : Int) (df : List Row) (c : Nat) (b : ℚ)
    (rules : List (List (List Rule)))
    (h : ∀ r ∈ df, r.userId ≠ u) :
    filterRules u m df c b rules = Except.ok (FilterResult.baseline b) := by
  have hl : df.filter (fun r => r.userId == u) = [] := by
    rw [List.filter_eq_nil_iff]
    intro r hr
    simpa using h r hr
  simp [filterRules, hl]

/-- Witness for C1: a concrete dataset in which user 7 has no rows; the
baseline argument 3.5 is returned unchanged, with a non-empty rule list
present. -/
theorem c1_cold_user_fallback_witness :
    [Row.mk 5 10 3 "a" [("Action", 1)] none none].all (fun r => r.userId != 7) = true ∧
    filterRules 7 10 [Row.mk 5 10 3 "a" [("Action", 1)] none none] 0 (7/2)
      [[[Rule.mk ["Action"] ["Comedy"] 1]]] =
      Except.ok (FilterResult.baseline (7/2)) :=
  ⟨by decide,
   c1_cold_user_fallback 7 10 [Row.mk 5 10 3 "a" [("Action", 1)] none none] 0 (7/2)
     [[[Rule.mk ["Action"] ["Comedy"] 1]]] (by decide)⟩

/-- C4: for a user whose every rating of movie `m` in `df` is `R` (the
dataset invariant gives at most one such row) and who has rated `m` at
least once, `filterRules` returns exactly `R`, for every `rules`
argument and without any mining or filtering. -/
theorem c4_already_rated_short_circuit (u m : Int) (df : List Row) (c : Nat)
    (b : ℚ) (rules : List (List (List Rule))) (R : ℚ)
    (hex : ∃ r ∈ df, r.userId = u ∧ r.movieId = m)
    (huniq : ∀ r ∈ df, r.userId = u → r.movieId = m → r.rating = R) :
    filterRules u m df c b rules = Except.ok (FilterResult.rated R) := by
  obtain ⟨r0, hr0, hu0, hm0⟩ := hex
  have hmem : r0 ∈ df.filter (fun r => r.userId == u) := by
    rw [List.mem_filter]
    exact ⟨hr0, by simp [hu0]⟩
  have hcontains :
      ((df.filter (fun r => r.userId == u)).map (fun r => r.movieId)).contains m = true := by
    rw [List.contains_eq_any_beq, List.any_eq_true]
    exact ⟨r0.movieId, List.mem_map_of_mem _ hmem, by simp [hm0]⟩
  have hmem2 : r0 ∈ (df.filter (fun r => r.userId == u)).filter
      (fun r => r.movieId == m) := by
    rw [List.mem_filter]
    exact ⟨hmem, by simp [hm0]⟩
  rcases hsplit : (df.filter (fun r => r.userId == u)).filter
      (fun r => r.movieId == m) with _ | ⟨hd, tl⟩
  · rw [hsplit] at hmem2
    exact absurd hmem2 (List.not_mem_nil r0)
  · have hhd : hd ∈ (df.filter (fun r => r.userId == u)).filter
        (fun r => r.movieId == m) := by
      rw [hsplit]
      exact List.mem_cons_self hd tl
    rw [List.mem_filter, List.mem_filter] at hhd
    have hhd_rating : hd.rating = R :=
      huniq hd hhd.1.1 (by simpa using hhd.1.2) (by simpa using hhd.2)
    simp only [filterRules, hcontains, if_pos, hsplit, hhd_rating]

/-- Witness for C4: user 5 rated movie 10 with rating 3 in a concrete
dataset; the refiner returns 3 even though a rule list is supplied. -/
theorem c4_already_rated_short_circuit_witness :
    ([Row.mk 5 10 3 "a" [("Action", 1)] none none].filter
      (fun r => r.userId == 5 && r.movieId == 10)).length = 1 ∧
    filterRules 5 10 [Row.mk 5 10 3 "a" [("Action", 1)] none none] 0 (7/2)
      [[[Rule.mk ["Action"] ["Comedy"] 1]]] =
      Except.ok (FilterResult.rated 3) :=
  ⟨by decide,
   c4_already_rated_short_circuit 5 10
     [Row.mk 5 10 3 "a" [("Action", 1)] none none] 0 (7/2)
     [[[Rule.mk ["Action"] ["Comedy"] 1]]] 3
     ⟨Row.mk 5 10 3 "a" [("Action", 1)] none none, by decide, by decide, by decide⟩
     (by decide)⟩

/-- C2: a test row assigned to a cluster with no training members gets
`predicted_rating = none` (pandas NaN under `.map`) in the per-fold
prediction — never `some 0` — and the single-query predictor returns
`Except.ok` (no crash) carrying `none` (Python `None` from `.get`) as
the predicted rating in the same situation. -/
theorem c2_missing_baseline_marker :
    (∀ (fit : Nat → List (List ℚ) → KModel) (n : Nat) (train test : DF)
       (m : KModel) (train' test' : DF) (r : Row) (c : Nat),
       foldPredict fit n train test = Except.ok (m, train', test') →
       r ∈ test'.rows → r.cluster = some c →
       (∀ x ∈ train'.rows, x.cluster ≠ some c) →
       r.predicted_rating = none) ∧
    (∀ (u mid : Int) (m : KModel) (ms : List KModel) (t : DF) (ts : List DF)
       (data : List Row) (r : Row) (rest : List Row),
       data.filter (fun x => x.movieId == mid) = r :: rest →
       (∀ x ∈ t.rows, x.cluster ≠ some (m.assign (features r))) →
       Except.map (Option.map Prod.fst)
         (predict_rating_kmeans u mid (m :: ms) (t :: ts) data) =
         Except.ok (some none)) := by
  constructor
  · intro fit n train test m train' test' r c hok hr hc hcempty
    rw [foldPredict] at hok
    by_cases hcond : fitRaises n train = true
    · rw [if_pos hcond] at hok
      exact absurd hok (by simp)
    · rw [if_neg hcond] at hok
      simp only [] at hok
      split at hok
      · exact absurd hok (by simp)
      · simp only [Except.ok.injEq, Prod.mk.injEq] at hok
        obtain ⟨hm, htr, hte⟩ := hok
        subst hm htr hte
        obtain ⟨r0, hr0mem, hr0eq⟩ := List.mem_map.mp hr
        have hcl : r0.cluster = some c := by
          rw [← hr0eq] at hc
          simpa using hc
        have hmembers :
            (assignClusters (fit n (dfMatrix train)) train).rows.filter
              (fun x => x.cluster == some c) = [] := by
          rw [List.filter_eq_nil_iff]
          intro x hx
          simpa using hcempty x hx
        have htab :
            clusterMeanRatings
              (assignClusters (fit n (dfMatrix train)) train).rows c = none := by
          rw [clusterMeanRatings]
          simp [hmembers]
        rw [← hr0eq]
        simp [hcl, htab]
  · intro u mid m ms t ts data r rest hfilter hempty
    have htab : clusterMeanRatings t.rows (m.assign (features r)) = none := by
      rw [clusterMeanRatings]
      have hmembers : t.rows.filter
          (fun x => x.cluster == some (m.assign (features r))) = [] := by
        rw [List.filter_eq_nil_iff]
        intro x hx
        simpa using hempty x hx
      simp [hmembers]
    simp only [predict_rating_kmeans, hfilter]
    simp [htab, Except.map]

/-- Witness for C2: a fold whose only train row lands in cluster 1 while
the test row lands in cluster 0 (which has no train member) yields the
NaN marker, and the single-query predictor returns `ok` with `None` on a
train set whose rows all sit in cluster 1 while the queried movie is
assigned to cluster 0. -/
theorem c2_missing_baseline_marker_witness :
    foldPredict (fun _ _ => KModel.mk (fun fs => fs.length)) 1
      (DF.mk [Row.mk 1 10 3 "a" [("Action", 1)] none none] false false)
      (DF.mk [Row.mk 2 20 4 "b" [] none none] false false) =
      Except.ok (KModel.mk (fun fs => fs.length),
        DF.mk [Row.mk 1 10 3 "a" [("Action", 1)] (some 1) none] true false,
        DF.mk [Row.mk 2 20 4 "b" [] (some 0) none] true true) ∧
    (Row.mk 2 20 4 "b" [] (some 0) none).predicted_rating = none ∧
    Except.map (Option.map Prod.fst)
      (predict_rating_kmeans 99 20 [KModel.mk (fun _ => 0)]
        [DF.mk [Row.mk 1 10 3 "a" [("Action", 1)] (some 1) none] true false]
        [Row.mk 2 20 4 "b" [] none none]) = Except.ok (some none) :=
  ⟨rfl,
   c2_missing_baseline_marker.1 (fun _ _ => KModel.mk (fun fs => fs.length)) 1
     (DF.mk [Row.mk 1 10 3 "a" [("Action", 1)] none none] false false)
     (DF.mk [Row.mk 2 20 4 "b" [] none none] false false)
     (KModel.mk (fun fs => fs.length))
     (DF.mk [Row.mk 1 10 3 "a" [("Action", 1)] (some 1) none] true false)
     (DF.mk [Row.mk 2 20 4 "b" [] (some 0) none] true true)
     (Row.mk 2 20 4 "b" [] (some 0) none) 0 rfl (by simp) rfl (by decide),
   c2_missing_baseline_marker.2 99 20 (KModel.mk (fun _ => 0)) []
     (DF.mk [Row.mk 1 10 3 "a" [("Action", 1)] (some 1) none] true false) []
     [Row.mk 2 20 4 "b" [] none none] (Row.mk 2 20 4 "b" [] none none) []
     rfl (by decide)⟩

/-- C3 counterexample: with two folds of which the first is degenerate
(one train row, two requested clusters), `train_kmeans_and_predict`
returns a single error and no per-fold results at all — the second
(healthy) fold is never evaluated, as its untouched caller frames show.
The claim that the sweep completes every other fold is false. -/
theorem c3_counterexample_degenerate_fold_aborts_sweep :
    (train_kmeans_and_predict (fun _ _ => KModel.mk (fun fs => fs.length)) 2
      [DF.mk [Row.mk 1 10 3 "a" [("Action", 1)] none none] false false,
       DF.mk [Row.mk 1 10 3 "a" [("Action", 1)] none none,
              Row.mk 2 20 4 "b" [("Action", 1)] none none] false false]
      [DF.mk [Row.mk 3 30 5 "c" [("Action", 1)] none none] false false,
       DF.mk [Row.mk 4 40 2 "d" [("Action", 1)] none none] false false]).1 =
      Except.error PyError.valueError ∧
    (train_kmeans_and_predict (fun _ _ => KModel.mk (fun fs => fs.length)) 2
      [DF.mk [Row.mk 1 10 3 "a" [("Action", 1)] none none] false false,
       DF.mk [Row.mk 1 10 3 "a" [("Action", 1)] none none,
              Row.mk 2 20 4 "b" [("Action", 1)] none none] false false]
      [DF.mk [Row.mk 3 30 5 "c" [("Action", 1)] none none] false false,
       DF.mk [Row.mk 4 40 2 "d" [("Action", 1)] none none] false false]).2.2 =
      [DF.mk [Row.mk 3 30 5 "c" [("Action", 1)] none none] false false,
       DF.mk [Row.mk 4 40 2 "d" [("Action", 1)] none none] false false] :=
  ⟨rfl, rfl⟩

/-- C3 (amended): a fold whose train set cannot support the requested
cluster count makes the whole `train_kmeans_and_predict` call fail with
a reported error: the uncaught exception aborts the sweep, so no
per-fold evaluation is returned for any fold. -/
theorem c3_degenerate_fold_fails_sweep :
    ∀ (fit : Nat → List (List ℚ) → KModel) (n : Nat) (trs tss : List DF),
      (∃ tr ∈ trs, tr.rows.length < n ∨ n = 0) →
      ∃ e, (train_kmeans_and_predict fit n trs tss).1 = Except.error e := by
  intro fit n trs
  induction trs with
  | nil =>
    intro tss h
    obtain ⟨tr, htr, _⟩ := h
    exact absurd htr (List.not_mem_nil tr)
  | cons t trs ih =>
    intro tss h
    cases tss with
    | nil => exact ⟨PyError.indexError, rfl⟩
    | cons s tss' =>
      by_cases hdeg : t.rows.length < n ∨ n = 0
      · refine ⟨PyError.valueError, ?_⟩
        have hfR : fitRaises n t = true := by
          rcases hdeg with hlt | hz
          · simp [fitRaises, hlt]
          · simp [fitRaises, hz]
        have hfp : foldPredict fit n t s = Except.error PyError.valueError := by
          rw [foldPredict, if_pos hfR]
        have hfe : foldEffect fit n t s = (Except.error PyError.valueError, t, s) := by
          rw [foldEffect, hfp]
          simp [hfR]
        simp only [train_kmeans_and_predict, hfe]
      · have h' : ∃ tr ∈ trs, tr.rows.length < n ∨ n = 0 := by
          obtain ⟨tr, htr, hp⟩ := h
          rcases List.mem_cons.mp htr with rfl | hmem
          · exact absurd hp hdeg
          · exact ⟨tr, hmem, hp⟩
        obtain ⟨e, he⟩ := ih tss' h'
        rcases hfe : foldEffect fit n t s with ⟨res, t', s'⟩
        cases res with
        | error e2 =>
          exact ⟨e2, by simp only [train_kmeans_and_predict, hfe]⟩
        | ok val =>
          obtain ⟨mseV, m, tdf, sdf⟩ := val
          rcases hrec : train_kmeans_and_predict fit n trs tss' with ⟨res2, trs', tss''⟩
          rw [hrec] at he
          simp only at he
          cases res2 with
          | error e2 =>
            refine ⟨e2, ?_⟩
            simp only [train_kmeans_and_predict, hfe, hrec]
          | ok v2 =>
            exact absurd he (by simp)

/-- Witness for C3 (amended): the degenerate two-fold input above makes
the whole sweep fail with an error. -/
theorem c3_degenerate_fold_fails_sweep_witness :
    (DF.mk [Row.mk 1 10 3 "a" [("Action", 1)] none none] false false).rows.length < 2 ∧
    ∃ e, (train_kmeans_and_predict (fun _ _ => KModel.mk (fun fs => fs.length)) 2
      [DF.mk [Row.mk 1 10 3 "a" [("Action", 1)] none none] false false,
       DF.mk [Row.mk 1 10 3 "a" [("Action", 1)] none none,
              Row.mk 2 20 4 "b" [("Action", 1)] none none] false false]
      [DF.mk [Row.mk 3 30 5 "c" [("Action", 1)] none none] false false,
       DF.mk [Row.mk 4 40 2 "d" [("Action", 1)] none none] false false]).1 =
      Except.error e :=
  ⟨by decide,
   c3_degenerate_fold_fails_sweep (fun _ _ => KModel.mk (fun fs => fs.length)) 2
     [DF.mk [Row.mk 1 10 3 "a" [("Action", 1)] none none] false false,
      DF.mk [Row.mk 1 10 3 "a" [("Action", 1)] none none,
             Row.mk 2 20 4 "b" [("Action", 1)] none none] false false]
     [DF.mk [Row.mk 3 30 5 "c" [("Action", 1)] none none] false false,
      DF.mk [Row.mk 4 40 2 "d" [("Action", 1)] none none] false false]
     ⟨DF.mk [Row.mk 1 10 3 "a" [("Action", 1)] none none] false false,
      List.mem_cons_self _ _, Or.inl (by decide)⟩⟩

/-- Inversion for a successful fold: every component of the result is
determined, and the model and clustered train frame are computed from
the train rows alone. -/
theorem foldEffect_ok_inv (fit : Nat → List (List ℚ) → KModel) (n : Nat)
    (t s : DF) (mseV : ℚ) (m : KModel) (tdf sdf t' s' : DF)
    (h : foldEffect fit n t s = (Except.ok (mseV, m, tdf, sdf), t', s')) :
    m = fit n (dfMatrix t) ∧
    tdf = assignClusters (fit n (dfMatrix t)) t ∧
    sdf = setPredicted
      (clusterMeanRatings (assignClusters (fit n (dfMatrix t)) t).rows)
      (assignClustersFrom (fit n (dfMatrix t)) s
        (if s.hasPredictedCol then dropPredicted s else s)) ∧
    t' = assignClusters (fit n (dfMatrix t)) t ∧
    s' = (if s.hasPredictedCol then s else sdf) := by
  rcases hfp : foldPredict fit n t s with e | ⟨m0, tr0, te0⟩
  · rw [foldEffect, hfp] at h
    simp only [Prod.mk.injEq] at h
    exact absurd h.1 (by simp)
  · rw [foldEffect, hfp] at h
    simp only [] at h
    split at h
    · simp only [Prod.mk.injEq] at h
      exact absurd h.1 (by simp)
    · simp only [Prod.mk.injEq, Except.ok.injEq] at h
      obtain ⟨⟨-, hm2, hm3, hm4⟩, ht1, hs1⟩ := h
      rw [foldPredict] at hfp
      by_cases h1 : fitRaises n t = true
      · rw [if_pos h1] at hfp
        exact absurd hfp (by simp)
      · rw [if_neg h1] at hfp
        simp only [] at hfp
        by_cases h2 : predictRaises t s = true
        · rw [if_pos h2] at hfp
          exact absurd hfp (by simp)
        · rw [if_neg h2] at hfp
          simp only [Except.ok.injEq, Prod.mk.injEq] at hfp
          obtain ⟨hfm, hftr, hfte⟩ := hfp
          refine ⟨hm2.symm.trans hfm.symm, hm3.symm.trans hftr.symm,
            hm4.symm.trans hfte.symm, ht1.symm.trans hftr.symm, ?_⟩
          rw [← hm4]
          exact hs1.symm

/-- A successful sweep computes its models and clustered train frames
from the train frames alone: closed form of those two outputs. -/
theorem tkp_ok_models_trains :
    ∀ (fit : Nat → List (List ℚ) → KModel) (n : Nat) (trs tss : List DF)
      (r : List ℚ × List KModel × List DF) (a b : List DF),
      train_kmeans_and_predict fit n trs tss = (Except.ok r, a, b) →
      r.2.1 = trs.map (fun t => fit n (dfMatrix t)) ∧
      r.2.2 = trs.map (fun t => assignClusters (fit n (dfMatrix t)) t) := by
  intro fit n trs
  induction trs with
  | nil =>
    intro tss r a b h
    simp only [train_kmeans_and_predict, Prod.mk.injEq, Except.ok.injEq] at h
    rw [← h.1]
    exact ⟨rfl, rfl⟩
  | cons t trs ih =>
    intro tss r a b h
    cases tss with
    | nil =>
      simp only [train_kmeans_and_predict, Prod.mk.injEq] at h
      exact absurd h.1 (by simp)
    | cons s tss' =>
      rcases hfe : foldEffect fit n t s with ⟨res, t', s'⟩
      cases res with
      | error e =>
        rw [train_kmeans_and_predict] at h
        simp only [hfe] at h
        simp only [Prod.mk.injEq] at h
        exact absurd h.1 (by simp)
      | ok val =>
        obtain ⟨mseV, m, tdf, sdf⟩ := val
        rcases hrec : train_kmeans_and_predict fit n trs tss' with ⟨res2, trs', tss''⟩
        cases res2 with
        | error e =>
          rw [train_kmeans_and_predict] at h
          simp only [hfe, hrec] at h
          simp only [Prod.mk.injEq] at h
          exact absurd h.1 (by simp)
        | ok v2 =>
          rw [train_kmeans_and_predict] at h
          simp only [hfe, hrec] at h
          simp only [Prod.mk.injEq, Except.ok.injEq] at h
          obtain ⟨hr, -, -⟩ := h
          obtain ⟨hm, htd, -, -, -⟩ := foldEffect_ok_inv fit n t s mseV m tdf sdf t' s' hfe
          obtain ⟨ihm, ihtd⟩ := ih tss' v2 trs' tss'' hrec
          rw [← hr]
          constructor
          · simp only [List.map_cons]
            rw [← hm, ← ihm]
          · simp only [List.map_cons]
            rw [← htd, ← ihtd]

/-- C8: two runs of `train_kmeans_and_predict` on the same train frames
and cluster count that both succeed produce identical fitted models,
identical clustered train frames, and identical per-fold cluster
baseline tables, whatever their test frames are: test rows never
influence fitting or the baseline means. -/
theorem c8_no_leakage (fit : Nat → List (List ℚ) → KModel) (n : Nat)
    (trs ts1 ts2 : List DF) (r1 r2 : List ℚ × List KModel × List DF)
    (a1 b1 a2 b2 : List DF)
    (h1 : train_kmeans_and_predict fit n trs ts1 = (Except.ok r1, a1, b1))
    (h2 : train_kmeans_and_predict fit n trs ts2 = (Except.ok r2, a2, b2)) :
    r1.2.1 = r2.2.1 ∧ r1.2.2 = r2.2.2 ∧
    r1.2.2.map (fun d => clusterMeanRatings d.rows) =
      r2.2.2.map (fun d => clusterMeanRatings d.rows) := by
  obtain ⟨hm1, ht1⟩ := tkp_ok_models_trains fit n trs ts1 r1 a1 b1 h1
  obtain ⟨hm2, ht2⟩ := tkp_ok_models_trains fit n trs ts2 r2 a2 b2 h2
  refine ⟨hm1.trans hm2.symm, ht1.trans ht2.symm, ?_⟩
  rw [ht1, ht2]

/-- Witness for C8: one fold, same train frame, two different test rows;
both runs succeed and agree on the model list, the clustered train
frames and the baseline tables. -/
theorem c8_no_leakage_witness :
    train_kmeans_and_predict (fun _ _ => KModel.mk (fun _ => 0)) 1
      [DF.mk [Row.mk 1 10 3 "a" [("Action", 1)] none none] false false]
      [DF.mk [Row.mk 3 30 5 "c" [("Action", 1)] none none] false false] =
      (Except.ok ([4], [KModel.mk (fun _ => 0)],
        [DF.mk [Row.mk 1 10 3 "a" [("Action", 1)] (some 0) none] true false]),
       [DF.mk [Row.mk 1 10 3 "a" [("Action", 1)] (some 0) none] true false],
       [DF.mk [Row.mk 3 30 5 "c" [("Action", 1)] (some 0) (some 3)] true true]) ∧
    train_kmeans_and_predict (fun _ _ => KModel.mk (fun _ => 0)) 1
      [DF.mk [Row.mk 1 10 3 "a" [("Action", 1)] none none] false false]
      [DF.mk [Row.mk 4 40 2 "d" [("Action", 1)] none none] false false] =
      (Except.ok ([1], [KModel.mk (fun _ => 0)],
        [DF.mk [Row.mk 1 10 3 "a" [("Action", 1)] (some 0) none] true false]),
       [DF.mk [Row.mk 1 10 3 "a" [("Action", 1)] (some 0) none] true false],
       [DF.mk [Row.mk 4 40 2 "d" [("Action", 1)] (some 0) (some 3)] true true]) ∧
    ([4], [KModel.mk (fun (_ : List ℚ) => (0 : Nat))],
      [DF.mk [Row.mk 1 10 3 "a" [("Action", 1)] (some 0) none] true false]).2.1 =
      ([1], [KModel.mk (fun (_ : List ℚ) => (0 : Nat))],
        [DF.mk [Row.mk 1 10 3 "a" [("Action", 1)] (some 0) none] true false]).2.1 := by
  have h1 : train_kmeans_and_predict (fun _ _ => KModel.mk (fun _ => 0)) 1
      [DF.mk [Row.mk 1 10 3 "a" [("Action", 1)] none none] false false]
      [DF.mk [Row.mk 3 30 5 "c" [("Action", 1)] none none] false false] =
      (Except.ok ([4], [KModel.mk (fun _ => 0)],
        [DF.mk [Row.mk 1 10 3 "a" [("Action", 1)] (some 0) none] true false]),
       [DF.mk [Row.mk 1 10 3 "a" [("Action", 1)] (some 0) none] true false],
       [DF.mk [Row.mk 3 30 5 "c" [("Action", 1)] (some 0) (some 3)] true true]) := by
    norm_num [train_kmeans_and_predict, foldEffect, foldPredict, fitRaises,
      predictRaises, dfMatrix, dfMatrixRow, dfMatrixHasNaN, assignClusters,
      assignClustersFrom, setPredicted, clusterMeanRatings, mseOf, dropPredicted]
  have h2 : train_kmeans_and_predict (fun _ _ => KModel.mk (fun _ => 0)) 1
      [DF.mk [Row.mk 1 10 3 "a" [("Action", 1)] none none] false false]
      [DF.mk [Row.mk 4 40 2 "d" [("Action", 1)] none none] false false] =
      (Except.ok ([1], [KModel.mk (fun _ => 0)],
        [DF.mk [Row.mk 1 10 3 "a" [("Action", 1)] (some 0) none] true false]),
       [DF.mk [Row.mk 1 10 3 "a" [("Action", 1)] (some 0) none] true false],
       [DF.mk [Row.mk 4 40 2 "d" [("Action", 1)] (some 0) (some 3)] true true]) := by
    norm_num [train_kmeans_and_predict, foldEffect, foldPredict, fitRaises,
      predictRaises, dfMatrix, dfMatrixRow, dfMatrixHasNaN, assignClusters,
      assignClustersFrom, setPredicted, clusterMeanRatings, mseOf, dropPredicted]
  exact ⟨h1, h2,
    (c8_no_leakage (fun _ _ => KModel.mk (fun _ => 0)) 1
      [DF.mk [Row.mk 1 10 3 "a" [("Action", 1)] none none] false false]
      [DF.mk [Row.mk 3 30 5 "c" [("Action", 1)] none none] false false]
      [DF.mk [Row.mk 4 40 2 "d" [("Action", 1)] none none] false false]
      _ _ _ _ _ _ h1 h2).1⟩

/-- C9 counterexample: `train_kmeans_and_predict` mutates the caller's
train dataframe in place — after a successful one-fold call the caller's
train frame has acquired the `cluster` column, so it is not unchanged as
the claim asserts. -/
theorem c9_counterexample_caller_train_mutated :
    (train_kmeans_and_predict (fun _ _ => KModel.mk (fun _ => 0)) 1
      [DF.mk [Row.mk 1 10 3 "a" [("Action", 1)] none none] false false]
      [DF.mk [Row.mk 3 30 5 "c" [("Action", 1)] none none] false false]).2.1 ≠
    [DF.mk [Row.mk 1 10 3 "a" [("Action", 1)] none none] false false] := by
  norm_num [train_kmeans_and_predict, foldEffect, foldPredict, fitRaises,
    predictRaises, dfMatrix, dfMatrixRow, dfMatrixHasNaN, assignClusters,
    assignClustersFrom, setPredicted, clusterMeanRatings, mseOf, dropPredicted]

/-- C9 (amended): the call does mutate the caller's frames in general
(the train frames always gain the cluster column in place, and so do
test frames without a stale prediction column on the success path), and
a test frame that still carries a stale `predicted_rating` column from a
previous run is never rewritten: `X_test` is built (line 114) before the
stale drop (lines 122-123) and so retains the stale column, which does
not match the columns the model was fitted on (the previous run leaves
train frames without a `predicted_rating` column), so
`kmeans.predict(X_test)` raises a ValueError, the sweep fails, and the
caller's stale test frame — which `drop` had copied — is left exactly
as it was, stale column included. -/
theorem c9_stale_column_raises (fit : Nat → List (List ℚ) → KModel)
    (n : Nat) (tr te : DF)
    (hpred : te.hasPredictedCol = true) (htrp : tr.hasPredictedCol = false) :
    (train_kmeans_and_predict fit n [tr] [te]).1 = Except.error PyError.valueError ∧
    (train_kmeans_and_predict fit n [tr] [te]).2.2 = [te] := by
  have hfp : foldPredict fit n tr te = Except.error PyError.valueError := by
    rw [foldPredict]
    by_cases h1 : fitRaises n tr = true
    · rw [if_pos h1]
    · rw [if_neg h1]
      have h2 : predictRaises tr te = true := by
        simp [predictRaises, hpred, htrp]
      simp [h2]
  have hfe : foldEffect fit n tr te =
      (Except.error PyError.valueError,
       if fitRaises n tr then tr else assignClusters (fit n (dfMatrix tr)) tr,
       te) := by
    rw [foldEffect, hfp]
  constructor
  · simp only [train_kmeans_and_predict, hfe]
  · simp only [train_kmeans_and_predict, hfe]

/-- Witness for C9 (amended): re-running a fold on a test frame that
kept a stale prediction (value 9) from a previous run fails with a
ValueError, and the caller's stale test frame is returned exactly as it
was. -/
theorem c9_stale_column_raises_witness :
    (DF.mk [Row.mk 3 30 5 "c" [("Action", 1)] none (some 9)] false true).hasPredictedCol = true ∧
    (DF.mk [Row.mk 1 10 3 "a" [("Action", 1)] none none] false false).hasPredictedCol = false ∧
    (train_kmeans_and_predict (fun _ _ => KModel.mk (fun _ => 0)) 1
      [DF.mk [Row.mk 1 10 3 "a" [("Action", 1)] none none] false false]
      [DF.mk [Row.mk 3 30 5 "c" [("Action", 1)] none (some 9)] false true]).1 =
      Except.error PyError.valueError ∧
    (train_kmeans_and_predict (fun _ _ => KModel.mk (fun _ => 0)) 1
      [DF.mk [Row.mk 1 10 3 "a" [("Action", 1)] none none] false false]
      [DF.mk [Row.mk 3 30 5 "c" [("Action", 1)] none (some 9)] false true]).2.2 =
      [DF.mk [Row.mk 3 30 5 "c" [("Action", 1)] none (some 9)] false true] :=
  ⟨rfl, rfl,
   (c9_stale_column_raises (fun _ _ => KModel.mk (fun _ => 0)) 1
     (DF.mk [Row.mk 1 10 3 "a" [("Action", 1)] none none] false false)
     (DF.mk [Row.mk 3 30 5 "c" [("Action", 1)] none (some 9)] false true)
     rfl rfl).1,
   (c9_stale_column_raises (fun _ _ => KModel.mk (fun _ => 0)) 1
     (DF.mk [Row.mk 1 10 3 "a" [("Action", 1)] none none] false false)
     (DF.mk [Row.mk 3 30 5 "c" [("Action", 1)] none (some 9)] false true)
     rfl rfl).2⟩

end MovieRec
